import Mathlib

/-!
Shallow embedding of the multi-agent orchestrator
(`backend/orchestrator/app.py`) and the MCP worker entrypoint
(`backend/mcp-worker/worker.py`), together with theorems settling the
behavioural claims about workspace provisioning, request validation,
job submission, status/log aggregation, role-specific prompts and the
stage-advancement guard.

Conventions: subprocess git calls are modelled by an oracle
`GitEnv` mapping (args, cwd) to success/stdout or failure/stderr;
filesystem writes, git calls and Kubernetes job submissions are
recorded in an explicit effect trace; HTTP failures are `HttpError`
values.  String formatting follows the Python sources literally.
-/

/-- Boolean substring test: `strContains hay needle` is `true` iff
`needle` occurs contiguously in `hay`. -/
def strContains (hay needle : String) : Bool :=
  (List.range (hay.length + 1)).any (fun i => needle.data.isPrefixOf (hay.data.drop i))

-- ---------------------------------------------------------------------------
-- worker.py : role-specific system prompts
-- ---------------------------------------------------------------------------

/-- Embedding of `_worker_system_prompt` from `worker.py`. -/
def _worker_system_prompt (agent_id branch : String) : String :=
  "You are autonomous agent #" ++ agent_id ++ " in a group of agents. " ++
  "Complete the given task independently and thoroughly. " ++
  "Provide detailed results when finished." ++
  "\n\n--- GIT WORKFLOW INSTRUCTIONS ---\n" ++
  "You are working inside a git worktree on branch '" ++ branch ++ "'.\n" ++
  "Your working directory is already set to this worktree.\n" ++
  "IMPORTANT: As your VERY LAST step, after all other work is complete, you MUST:\n" ++
  "  1. Run `git add -A` to stage every file you created or changed.\n" ++
  "  2. Run `git commit -m \"Agent work: <short summary of what you did>\"` " ++
  "to commit all changes.\n" ++
  "Do NOT push. Do NOT switch branches. Just add and commit.\n" ++
  "--- END GIT WORKFLOW INSTRUCTIONS ---\n"

/-- Embedding of `_reviewer_system_prompt` from `worker.py`. -/
def _reviewer_system_prompt (agent_id branch : String) : String :=
  "You are the REVIEWER agent for branch '" ++ branch ++ "'.\n" ++
  "Your job is to review all changes committed by the worker agent.\n\n" ++
  "Follow these steps:\n" ++
  "  1. Run `git log --oneline main..` to see the worker's commits.\n" ++
  "  2. Run `git diff main` to see all changes since main.\n" ++
  "  3. Review the code thoroughly: look for bugs, logic errors,\n" ++
  "     missing edge cases, security issues, and style problems.\n" ++
  "  4. If you find issues, FIX them directly in the code.\n" ++
  "  5. ALWAYS create a file called `review-details.md` in the\n" ++
  "     working directory. This file MUST contain:\n" ++
  "       - A summary of what was reviewed\n" ++
  "       - Any issues found (or 'No issues found')\n" ++
  "       - Any fixes applied\n" ++
  "  6. As your VERY LAST step:\n" ++
  "       a. Run `git add -A`\n" ++
  "       b. Run `git commit -m \"Review: <short summary>\"` \n" ++
  "Do NOT push. Do NOT switch branches.\n"

/-- Embedding of `_committer_system_prompt` from `worker.py`
(string literals split at the interpolation holes of the f-string). -/
def _committer_system_prompt (branch repo_dir : String) : String :=
  "You are the COMMITTER agent. Your job is to merge branch '" ++ branch ++ "' " ++
  "into the main branch.\n\n" ++
  "Follow these steps:\n" ++
  "  1. Change directory: `" ++ "cd " ++ repo_dir ++ "`\n" ++
  "  2. Run `" ++ "git merge " ++ branch ++ "` to merge the branch into main.\n" ++
  "  3. If there are merge conflicts, resolve them and then run\n" ++
  "     `git add -A` followed by `git commit -m \"Merge: resolved conflicts\"`.\n" ++
  "  4. Verify the merge succeeded: `git log --oneline -5`\n" ++
  "Do NOT push. Do NOT delete the branch.\n"

-- ---------------------------------------------------------------------------
-- worker.py : main() configuration (the pure prefix of `main`)
-- ---------------------------------------------------------------------------

/-- The process environment a worker pod sees: a partial map from
variable names to values (mirroring `os.environ`). -/
structure WorkerEnv where
  lookup : String → Option String

/-- Embedding of Python's `os.environ.get(name, dflt)`. -/
def os_environ_get (e : WorkerEnv) (name dflt : String) : String :=
  (e.lookup name).getD dflt

/-- The configuration `main()` computes before invoking the agent:
working directory, role instructions appended to the system prompt,
and the effective user prompt. -/
structure MainSetup where
  cwd : String
  instructions : String
  effective_prompt : String
deriving DecidableEq

/-- Outcome of the pure prefix of `worker.py`'s `main()`: either the
process exits with an error (worker role, empty prompt) or it runs the
agent with a `MainSetup`. -/
inductive MainConfig
  | exitNoPrompt
  | setup (s : MainSetup)
deriving DecidableEq

/-- Embedding of the pure prefix of `main()` in `worker.py`: reads the
environment, resolves the working directory, and dispatches on the
role to build instructions and effective prompt. -/
def worker_main_config (e : WorkerEnv) : MainConfig :=
  let prompt := os_environ_get e "AGENT_PROMPT" ""
  let agent_id := os_environ_get e "AGENT_ID" "0"
  let branch := os_environ_get e "AGENT_BRANCH" ""
  let worktree_path := os_environ_get e "AGENT_WORKTREE_PATH" ""
  let role := os_environ_get e "AGENT_ROLE" "worker"
  let repo_dir := os_environ_get e "REPO_DIR" ""
  let cwd :=
    if role = "committer" ∧ repo_dir ≠ "" then repo_dir
    else if worktree_path ≠ "" then worktree_path
    else "/home/agent/workspace"
  if role = "reviewer" then
    .setup ⟨cwd, _reviewer_system_prompt agent_id branch,
      "Review all changes on branch '" ++ branch ++ "'. " ++
      "Create review-details.md and commit your review."⟩
  else if role = "committer" then
    .setup ⟨cwd, _committer_system_prompt branch repo_dir,
      "Merge branch '" ++ branch ++ "' into main in the repo at " ++ repo_dir ++ "."⟩
  else if prompt = "" then .exitNoPrompt
  else .setup ⟨cwd, _worker_system_prompt agent_id branch, prompt⟩

/-- The effective prompt chosen by `main()`, when the process runs. -/
def effectivePromptOf : MainConfig → Option String
  | .exitNoPrompt => none
  | .setup s => some s.effective_prompt

/-- Convenience constructor for a concrete process environment. -/
def mkWorkerEnv (l : List (String × String)) : WorkerEnv :=
  ⟨fun n => (l.find? (fun p => p.fst == n)).map Prod.snd⟩

-- ---------------------------------------------------------------------------
-- app.py : constants, request and job model
-- ---------------------------------------------------------------------------

/-- `OUTPUT_BASE` from `app.py`. -/
def OUTPUT_BASE : String := "/mnt/claude-output"

/-- `NAMESPACE` from `app.py`. -/
def NAMESPACE : String := "backend"

/-- Default value of `MCP_WORKER_IMAGE` from `app.py`. -/
def MCP_WORKER_IMAGE : String := "mcp-worker:latest"

/-- `RunRequest` from `app.py` (`prompt: str`, `num_agents: int`). -/
structure RunRequest where
  prompt : String
  num_agents : Int

/-- Source of a container environment variable: literal value or a
Kubernetes secret-key reference. -/
inductive EnvValue
  | value (v : String)
  | secretKeyRef (secretName key : String)
deriving DecidableEq

/-- A `V1EnvVar` of the job spec. -/
structure EnvVar where
  name : String
  val : EnvValue
deriving DecidableEq

/-- The parts of the `V1Job` built by `_build_job` that the claims
are about. -/
structure K8sJob where
  name : String
  namespc : String
  labels : List (String × String)
  image : String
  env : List EnvVar
  restart_policy : String
  backoff_limit : Nat
  ttl_seconds_after_finished : Nat
deriving DecidableEq

/-- Embedding of `_build_job` from `app.py`: the job spec for one MCP
worker, with the container environment exactly as constructed there. -/
def _build_job (name : String) (prompt : String) (agent_id : Nat)
    (group_id : String) (branch : String) (worktree_path : String) : K8sJob :=
  { name := name
    namespc := NAMESPACE
    labels := [("app", "mcp-worker"), ("job-group", group_id)]
    image := MCP_WORKER_IMAGE
    env :=
      [ ⟨"AGENT_PROMPT", .value prompt⟩,
        ⟨"AGENT_ID", .value (Nat.repr agent_id)⟩,
        ⟨"JOB_GROUP_ID", .value group_id⟩,
        ⟨"AGENT_BRANCH", .value branch⟩,
        ⟨"AGENT_WORKTREE_PATH", .value worktree_path⟩,
        ⟨"ANTHROPIC_API_KEY", .secretKeyRef "anthropic-api-key" "api-key"⟩ ]
    restart_policy := "Never"
    backoff_limit := 0
    ttl_seconds_after_finished := 3600 }

/-- Resolve an `EnvValue` to the string the container will see
(`secret` is the cluster-provided secret value). -/
def envVarString (secret : String) : EnvValue → String
  | .value v => v
  | .secretKeyRef _ _ => secret

/-- The process environment a pod of job `j` runs with. -/
def workerEnvOfJob (j : K8sJob) (secret : String) : WorkerEnv :=
  ⟨fun n => (j.env.find? (fun ev => ev.name == n)).map (fun ev => envVarString secret ev.val)⟩

-- ---------------------------------------------------------------------------
-- app.py : git oracle and effect trace
-- ---------------------------------------------------------------------------

/-- Result of one `subprocess.run(["git", ...])` call: stdout on exit
code 0, stderr otherwise (`check=True` raises `CalledProcessError`). -/
inductive GitResult
  | ok (stdout : String)
  | err (stderr : String)

/-- The external git substrate: maps the argument list and working
directory of a git invocation to its result. -/
def GitEnv : Type := List String → String → GitResult

/-- Observable side effects of the orchestrator. -/
inductive Effect
  | makedirs (path : String)
  | gitCall (args : List String) (cwd : String)
  | writeFile (path contents : String)
  | createJob (job : K8sJob)
deriving DecidableEq

/-- Embedding of `_run_git`: records the invocation in the trace and
returns stdout, or fails with the call's stderr. -/
def _run_git (env : GitEnv) (args : List String) (cwd : String)
    (tr : List Effect) : Except String String × List Effect :=
  let tr := tr ++ [Effect.gitCall args cwd]
  match env args cwd with
  | .ok out => (.ok out, tr)
  | .err stderr => (.error stderr, tr)

-- ---------------------------------------------------------------------------
-- app.py : setup_run_repo
-- ---------------------------------------------------------------------------

/-- One agent lane's record as returned by `setup_run_repo`. -/
structure Worktree where
  agent_id : Nat
  branch : String
  worktree_path : String
deriving DecidableEq

/-- The run directory `os.path.join(OUTPUT_BASE, f"run-<group_id>")`. -/
def run_dir_of (group_id : String) : String :=
  "/mnt/claude-output/run-" ++ group_id

/-- The per-agent loop of `setup_run_repo`: for each index, add a
worktree on a fresh branch and record the lane. -/
def create_worktrees (env : GitEnv) (run_dir repo_dir : String) :
    List Nat → List Effect → Except String (List Worktree) × List Effect
  | [], tr => (.ok [], tr)
  | i :: rest, tr =>
    let branch_name := "agent-" ++ Nat.repr i
    let worktree_path := run_dir ++ ("/agent-" ++ Nat.repr i)
    match _run_git env ["worktree", "add", "-b", branch_name, worktree_path] repo_dir tr with
    | (.error e, tr) => (.error e, tr)
    | (.ok _, tr) =>
      match create_worktrees env run_dir repo_dir rest tr with
      | (.error e, tr) => (.error e, tr)
      | (.ok ws, tr) => (.ok (⟨i, branch_name, worktree_path⟩ :: ws), tr)

/-- Sequencing of one git call in `setup_run_repo`: run the command,
return its error immediately if it fails (`CalledProcessError`
propagates to the caller), otherwise continue with the rest of the
setup. -/
def gitStep (env : GitEnv) (args : List String) (cwd : String)
    (k : List Effect → Except String (List Worktree) × List Effect)
    (tr : List Effect) : Except String (List Worktree) × List Effect :=
  match _run_git env args cwd tr with
  | (.error e, tr) => (.error e, tr)
  | (.ok _, tr) => k tr

/-- Embedding of `setup_run_repo` from `app.py`: create the run
directory, init the repository, configure it, make the seed commit,
then create one worktree per agent index. -/
def setup_run_repo (env : GitEnv) (group_id : String) (num_agents : Nat)
    (tr : List Effect) : Except String (List Worktree) × List Effect :=
  let run_dir := run_dir_of group_id
  let repo_dir := run_dir ++ "/repo"
  let tr := tr ++ [Effect.makedirs repo_dir]
  gitStep env ["init"] repo_dir (fun tr =>
  gitStep env ["config", "user.email", "agent@claude.local"] repo_dir (fun tr =>
  gitStep env ["config", "user.name", "Claude Agent"] repo_dir (fun tr =>
  let tr := tr ++ [Effect.writeFile (repo_dir ++ "/README.md")
    ("# Run " ++ group_id ++ "\n\nMulti-agent Claude MCP run.\n")]
  gitStep env ["add", "."] repo_dir (fun tr =>
  gitStep env ["commit", "-m", "Initial commit"] repo_dir (fun tr =>
  create_worktrees env run_dir repo_dir (List.range num_agents) tr) tr) tr) tr) tr) tr

/-- The worktree list of a run of `setup_run_repo` from an empty
trace, when it succeeds. -/
def setupWorktrees? (env : GitEnv) (group_id : String) (num_agents : Nat) :
    Option (List Worktree) :=
  match setup_run_repo env group_id num_agents [] with
  | (.ok ws, _) => some ws
  | (.error _, _) => none

-- ---------------------------------------------------------------------------
-- app.py : POST /api/run
-- ---------------------------------------------------------------------------

/-- An `HTTPException` raised by a handler. -/
structure HttpError where
  status : Nat
  detail : String
deriving DecidableEq

/-- The success payload of `POST /api/run`. -/
structure RunResponse where
  job_group_id : String
  jobs : List String
deriving DecidableEq

/-- The job name `f"mcp-worker-<job_group_id>-<agent_id>"` used in
`run_agents`. -/
def job_name (job_group_id : String) (agent_id : Nat) : String :=
  "mcp-worker-" ++ job_group_id ++ "-" ++ Nat.repr agent_id

/-- Embedding of the `run_agents` handler from `app.py`: validate the
request, provision the workspace, and submit one job per lane,
returning the HTTP outcome and the effect trace. -/
def run_agents (env : GitEnv) (req : RunRequest) (job_group_id : String) :
    Except HttpError RunResponse × List Effect :=
  if req.prompt = "" then (.error ⟨400, "Prompt is required"⟩, [])
  else if req.num_agents < 1 ∨ req.num_agents > 10 then
    (.error ⟨400, "Number of agents must be between 1 and 10"⟩, [])
  else
    match setup_run_repo env job_group_id req.num_agents.toNat [] with
    | (.error stderr, tr) =>
      (.error ⟨500, "Failed to set up git worktrees: " ++ stderr⟩, tr)
    | (.ok worktrees, tr) =>
      let submitted := worktrees.map (fun wt =>
        let jn := job_name job_group_id wt.agent_id
        (jn, Effect.createJob
          (_build_job jn req.prompt wt.agent_id job_group_id wt.branch wt.worktree_path)))
      (.ok ⟨job_group_id, submitted.map Prod.fst⟩, tr ++ submitted.map Prod.snd)

/-- Whether a handler outcome is a 400 rejection. -/
def isBadRequest : Except HttpError RunResponse → Bool
  | .error e => e.status == 400
  | .ok _ => false

-- ---------------------------------------------------------------------------
-- app.py : GET /api/status and GET /api/results
-- ---------------------------------------------------------------------------

/-- The status counters and timestamps of one Kubernetes job, as the
substrate reports them (`None` fields model Python `None`). -/
structure K8sJobStatus where
  name : String
  succeeded? : Option Nat
  failed? : Option Nat
  active? : Option Nat
  start_time? : Option String
  completion_time? : Option String
deriving DecidableEq

/-- A job stored in the cluster: its labels and its status. -/
structure ClusterJob where
  labels : List (String × String)
  status : K8sJobStatus

/-- Embedding of `list_namespaced_job` with label selector
`job-group=<gid>`: the statuses of the jobs carrying that label. -/
def list_jobs_matching (cluster : List ClusterJob) (gid : String) :
    List K8sJobStatus :=
  (cluster.filter (fun j => j.labels.lookup "job-group" == some gid)).map ClusterJob.status

/-- The status-classification cascade of `get_status` in `app.py`. -/
def classify_job (succeeded failed active : Nat) : String :=
  if succeeded > 0 then "completed"
  else if failed > 0 then "failed"
  else if active > 0 then "running"
  else "pending"

/-- One entry of the `GET /api/status` response. -/
structure JobStatusEntry where
  name : String
  status : String
  start_time : Option String
  completion_time : Option String
deriving DecidableEq

/-- Embedding of the `get_status` handler: classify every job matching
the run's label and report its timestamps. -/
def get_status (cluster : List ClusterJob) (job_group_id : String) :
    String × List JobStatusEntry :=
  (job_group_id,
    (list_jobs_matching cluster job_group_id).map (fun j =>
      let succeeded := j.succeeded?.getD 0
      let failed := j.failed?.getD 0
      let active := j.active?.getD 0
      ⟨j.name, classify_job succeeded failed active, j.start_time?, j.completion_time?⟩))

/-- One entry of the `GET /api/results` response: a pod's log, or the
error string of its failed log fetch. -/
inductive PodLogEntry
  | log (pod l : String)
  | err (pod e : String)
deriving DecidableEq

/-- The log-retrieval substrate: reading a pod's log yields the log
text or an `ApiException` message. -/
def LogOracle : Type := String → Except String String

/-- Embedding of the `get_results` handler: fetch each pod's log,
catching per-pod `ApiException`s as error entries. -/
def get_results (pods : List String) (readLog : LogOracle) (job_name : String) :
    String × List PodLogEntry :=
  (job_name, pods.map (fun p =>
    match readLog p with
    | .ok l => .log p l
    | .error e => .err p e))

-- ---------------------------------------------------------------------------
-- Stage machinery (Run Coordinator)
-- ---------------------------------------------------------------------------

/-- Modelled from the spec: the ordered pipeline stages a lane passes
through (`Stage : enum` of the data model; the stages a trigger may
name as its `from_stage`). -/
inductive Stage
  | worker
  | reviewer
  | committer
deriving DecidableEq

/-- Modelled from the spec: the observable position of a lane,
including the terminal position after the COMMITTER stage completed
(COMMITTER is terminal). -/
inductive LaneStage
  | worker
  | reviewer
  | committer
  | done
deriving DecidableEq

/-- A pipeline stage seen as a lane position. -/
def Stage.toLane : Stage → LaneStage
  | .worker => .worker
  | .reviewer => .reviewer
  | .committer => .committer

/-- Modelled from the spec: the successor position after a stage
completes (WORKER → REVIEWER → COMMITTER → terminal). -/
def Stage.next : Stage → LaneStage
  | .worker => .reviewer
  | .reviewer => .committer
  | .committer => .done

/-- Modelled from the spec: the coordinator's lane-stage table,
indexed by (run_id, agent_id). -/
def RunState : Type := String → Nat → LaneStage

/-- Modelled from the spec: the error raised when a trigger arrives
for a lane that is not at the expected prior stage. -/
structure StageConflictError where
  run_id : String
  agent_id : Nat
  expected : Stage
deriving DecidableEq

/-- Modelled from the spec: `advanceStage(run_id, agent_id,
from_stage)` — the orchestrator sources under `src/` contain no stage
coordinator (stage advancement is hook-driven from inside the jobs),
so this operation is modelled from §4.3 of the spec: advance the lane
to the next stage iff it currently sits at `from_stage`, otherwise
fail with `StageConflictError` and leave the table untouched. -/
def advanceStage (st : RunState) (run_id : String) (agent_id : Nat)
    (from_stage : Stage) : Except StageConflictError RunState :=
  if st run_id agent_id = from_stage.toLane then
    .ok (fun r a => if r = run_id ∧ a = agent_id then from_stage.next else st r a)
  else
    .error ⟨run_id, agent_id, from_stage⟩

/-- The job-name map of the claimed naming scheme, as a function of
run id, agent id and stage: the naming rule actually used by
`run_agents` (`job_name`, app.py line 135) takes no stage input, so
the name assigned to a lane's job is the same for every stage. -/
def job_name_for_stage (job_group_id : String) (agent_id : Nat) (_s : Stage) : String :=
  job_name job_group_id agent_id

-- ---------------------------------------------------------------------------
-- Concrete instances used in witnesses
-- ---------------------------------------------------------------------------

/-- A git substrate on which every command succeeds. -/
def gitOkEnv : GitEnv := fun _ _ => .ok ""

/-- A git substrate on which every command fails with stderr `boom`. -/
def gitFailEnv : GitEnv := fun _ _ => .err "boom"

/-- A lane table with every lane at the WORKER stage. -/
def demoState0 : RunState := fun _ _ => .worker

/-- `demoState0` after lane (run, 0) advanced out of WORKER. -/
def demoState1 : RunState :=
  fun r a => if r = "run" ∧ a = 0 then Stage.next Stage.worker else demoState0 r a

/-- A reviewer pod environment in which the caller supplied no prompt. -/
def reviewerEnv0 : WorkerEnv :=
  mkWorkerEnv [("AGENT_ROLE", "reviewer"), ("AGENT_ID", "0"), ("JOB_GROUP_ID", "g"),
    ("AGENT_BRANCH", "agent-0"), ("AGENT_WORKTREE_PATH", "/mnt/claude-output/run-abc/agent-0")]

/-- A log substrate on which only pod `pod-0` has a readable log. -/
def demoLog : LogOracle := fun p => if p = "pod-0" then .ok "out" else .error "boom"

/-- A cluster holding one job, labelled with run group `run1`. -/
def demoCluster : List ClusterJob :=
  [⟨[("app", "mcp-worker"), ("job-group", "run1")], ⟨"j1", some 1, none, none, none, none⟩⟩]

-- ---------------------------------------------------------------------------
-- Helper lemmas
-- ---------------------------------------------------------------------------

/-- Appending on the left of a string is cancellative. -/
theorem string_append_left_cancel {a b c : String} (h : a ++ b = a ++ c) : b = c := by
  have hd := congrArg String.data h
  simp only [String.data_append] at hd
  exact String.ext (List.append_cancel_left hd)

/-- A string built with a designated middle part contains that part. -/
theorem strContains_append_mid (x n y : String) :
    strContains (x ++ n ++ y) n = true := by
  unfold strContains
  rw [List.any_eq_true]
  refine ⟨x.length, List.mem_range.mpr ?_, ?_⟩
  · have h1 : (x ++ n ++ y).data.length
        = x.data.length + (n.data.length + y.data.length) := by
      simp [String.data_append]
    have h2 : (x ++ n ++ y).length = (x ++ n ++ y).data.length := rfl
    have h3 : x.length = x.data.length := rfl
    omega
  · have hd : (x ++ n ++ y).data = x.data ++ (n.data ++ y.data) := by
      simp [String.data_append]
    have h3 : x.length = x.data.length := rfl
    rw [hd, h3, List.drop_left, List.isPrefixOf_iff_prefix]
    exact List.prefix_append _ _

/-- The branch names of the first ten agent indices are pairwise
distinct. -/
theorem agent_branch_names_distinct :
    ∀ i < 10, ∀ j < 10, i ≠ j →
      ("agent-" ++ Nat.repr i : String) ≠ "agent-" ++ Nat.repr j := by decide

/-- The worktree subdirectory names of the first ten agent indices are
pairwise distinct. -/
theorem agent_dir_suffixes_distinct :
    ∀ i < 10, ∀ j < 10, i ≠ j →
      ("/agent-" ++ Nat.repr i : String) ≠ "/agent-" ++ Nat.repr j := by decide

/-- Decimal representations of naturals below ten are single
characters. -/
theorem nat_repr_len_one : ∀ a < 10, (Nat.repr a).data.length = 1 := by decide

/-- Decimal representation is injective on naturals below ten. -/
theorem nat_repr_inj_lt10 : ∀ a < 10, ∀ b < 10, Nat.repr a = Nat.repr b → a = b := by decide

/-- A git call appends exactly its own trace entry. -/
theorem run_git_snd (env : GitEnv) (args : List String) (cwd : String) (tr : List Effect) :
    (_run_git env args cwd tr).2 = tr ++ [Effect.gitCall args cwd] := by
  unfold _run_git
  cases env args cwd <;> rfl

/-- A git call never records a job submission. -/
theorem createJob_notin_run_git (env : GitEnv) (args : List String) (cwd : String)
    (tr : List Effect) (j : K8sJob)
    (h : Effect.createJob j ∈ (_run_git env args cwd tr).2) : Effect.createJob j ∈ tr := by
  rw [run_git_snd] at h
  rcases List.mem_append.mp h with h | h
  · exact h
  · simp at h

/-- A `gitStep` link never records a job submission of its own. -/
theorem gitStep_no_createJob (env : GitEnv) (args : List String) (cwd : String)
    (k : List Effect → Except String (List Worktree) × List Effect)
    (hk : ∀ tr j, Effect.createJob j ∈ (k tr).2 → Effect.createJob j ∈ tr)
    (tr : List Effect) (j : K8sJob)
    (h : Effect.createJob j ∈ (gitStep env args cwd k tr).2) :
    Effect.createJob j ∈ tr := by
  unfold gitStep at h
  split at h
  · rename_i e tr1 heq
    have h2 : tr ++ [Effect.gitCall args cwd] = tr1 := by
      have h0 := congrArg Prod.snd heq
      rwa [run_git_snd] at h0
    rw [← h2] at h
    rcases List.mem_append.mp h with h | h
    · exact h
    · simp at h
  · rename_i o tr1 heq
    have h2 : tr ++ [Effect.gitCall args cwd] = tr1 := by
      have h0 := congrArg Prod.snd heq
      rwa [run_git_snd] at h0
    have h3 := hk tr1 j h
    rw [← h2] at h3
    rcases List.mem_append.mp h3 with h3 | h3
    · exact h3
    · simp at h3

/-- If a `gitStep` link succeeds, the continuation ran on some trace
and produced the final outcome. -/
theorem gitStep_ok (env : GitEnv) (args : List String) (cwd : String)
    (k : List Effect → Except String (List Worktree) × List Effect)
    (tr tr' : List Effect) (ws : List Worktree)
    (h : gitStep env args cwd k tr = (.ok ws, tr')) :
    ∃ tr1, k tr1 = (.ok ws, tr') := by
  unfold gitStep at h
  split at h
  · simp at h
  · exact ⟨_, h⟩

/-- The worktree-creation loop never records a job submission. -/
theorem createJob_notin_create_worktrees (env : GitEnv) (rd repo : String) :
    ∀ (is : List Nat) (tr : List Effect) (j : K8sJob),
      Effect.createJob j ∈ (create_worktrees env rd repo is tr).2 →
      Effect.createJob j ∈ tr := by
  intro is
  induction is with
  | nil =>
    intro tr j h
    simpa [create_worktrees] using h
  | cons i rest ih =>
    intro tr j h
    simp only [create_worktrees] at h
    split at h
    · rename_i e tr1 heq
      have h2 : tr ++ [Effect.gitCall ["worktree", "add", "-b", "agent-" ++ Nat.repr i,
          rd ++ ("/agent-" ++ Nat.repr i)] repo] = tr1 := by
        have h0 := congrArg Prod.snd heq
        rwa [run_git_snd] at h0
      rw [← h2] at h
      rcases List.mem_append.mp h with h | h
      · exact h
      · simp at h
    · rename_i o tr1 heq
      have h2 : tr ++ [Effect.gitCall ["worktree", "add", "-b", "agent-" ++ Nat.repr i,
          rd ++ ("/agent-" ++ Nat.repr i)] repo] = tr1 := by
        have h0 := congrArg Prod.snd heq
        rwa [run_git_snd] at h0
      have h3 : Effect.createJob j ∈ tr1 := by
        split at h
        · rename_i e2 tr2 heq2
          have h4 : (create_worktrees env rd repo rest tr1).2 = tr2 := congrArg Prod.snd heq2
          rw [← h4] at h
          exact ih tr1 j h
        · rename_i ws2 tr2 heq2
          have h4 : (create_worktrees env rd repo rest tr1).2 = tr2 := congrArg Prod.snd heq2
          rw [← h4] at h
          exact ih tr1 j h
      rw [← h2] at h3
      rcases List.mem_append.mp h3 with h3 | h3
      · exact h3
      · simp at h3

/-- When the worktree-creation loop succeeds, it returns exactly one
lane per index, with the branch and path derived from the index. -/
theorem create_worktrees_ok (env : GitEnv) (rd repo : String) :
    ∀ (is : List Nat) (tr tr' : List Effect) (ws : List Worktree),
      create_worktrees env rd repo is tr = (.ok ws, tr') →
      ws = is.map (fun i => ⟨i, "agent-" ++ Nat.repr i, rd ++ ("/agent-" ++ Nat.repr i)⟩) := by
  intro is
  induction is with
  | nil =>
    intro tr tr' ws h
    unfold create_worktrees at h
    have h1 : (Except.ok (ε := String) ([] : List Worktree)) = .ok ws := congrArg Prod.fst h
    simpa using h1.symm
  | cons i rest ih =>
    intro tr tr' ws h
    simp only [create_worktrees] at h
    split at h
    · rename_i e tr1 heq
      simp at h
    · rename_i o tr1 heq
      split at h
      · rename_i e2 tr2 heq2
        simp at h
      · rename_i ws2 tr2 heq2
        have hrec := ih tr1 tr2 ws2 heq2
        have h1 : (Except.ok (ε := String)
            (Worktree.mk i ("agent-" ++ Nat.repr i) (rd ++ ("/agent-" ++ Nat.repr i)) :: ws2))
            = .ok ws := congrArg Prod.fst h
        have h2 : ws = Worktree.mk i ("agent-" ++ Nat.repr i)
            (rd ++ ("/agent-" ++ Nat.repr i)) :: ws2 := by
          simpa using h1.symm
        rw [h2, hrec]
        simp

/-- `setup_run_repo` never records a job submission. -/
theorem createJob_notin_setup (env : GitEnv) (gid : String) (n : Nat)
    (tr : List Effect) (j : K8sJob)
    (h : Effect.createJob j ∈ (setup_run_repo env gid n tr).2) :
    Effect.createJob j ∈ tr := by
  simp only [setup_run_repo] at h
  have hc : ∀ (tr : List Effect) (j : K8sJob),
      Effect.createJob j ∈ (create_worktrees env (run_dir_of gid)
        (run_dir_of gid ++ "/repo") (List.range n) tr).2 →
      Effect.createJob j ∈ tr :=
    fun tr j hh => createJob_notin_create_worktrees env _ _ _ tr j hh
  have h5 : ∀ (tr : List Effect) (j : K8sJob),
      Effect.createJob j ∈ (gitStep env ["commit", "-m", "Initial commit"]
        (run_dir_of gid ++ "/repo")
        (fun tr => create_worktrees env (run_dir_of gid)
          (run_dir_of gid ++ "/repo") (List.range n) tr) tr).2 →
      Effect.createJob j ∈ tr :=
    fun tr j hh => gitStep_no_createJob env _ _ _ hc tr j hh
  have h4 : ∀ (tr : List Effect) (j : K8sJob),
      Effect.createJob j ∈ (gitStep env ["add", "."] (run_dir_of gid ++ "/repo")
        (fun tr => gitStep env ["commit", "-m", "Initial commit"] (run_dir_of gid ++ "/repo")
          (fun tr => create_worktrees env (run_dir_of gid)
            (run_dir_of gid ++ "/repo") (List.range n) tr) tr)
        (tr ++ [Effect.writeFile (run_dir_of gid ++ "/repo" ++ "/README.md")
          ("# Run " ++ gid ++ "\n\nMulti-agent Claude MCP run.\n")])).2 →
      Effect.createJob j ∈ tr := by
    intro tr j hh
    have h6 := gitStep_no_createJob env _ _ _ h5 _ j hh
    rcases List.mem_append.mp h6 with h6 | h6
    · exact h6
    · simp at h6
  have h3 : ∀ (tr : List Effect) (j : K8sJob),
      Effect.createJob j ∈ (gitStep env ["config", "user.name", "Claude Agent"]
        (run_dir_of gid ++ "/repo")
        (fun tr => gitStep env ["add", "."] (run_dir_of gid ++ "/repo")
          (fun tr => gitStep env ["commit", "-m", "Initial commit"] (run_dir_of gid ++ "/repo")
            (fun tr => create_worktrees env (run_dir_of gid)
              (run_dir_of gid ++ "/repo") (List.range n) tr) tr)
          (tr ++ [Effect.writeFile (run_dir_of gid ++ "/repo" ++ "/README.md")
            ("# Run " ++ gid ++ "\n\nMulti-agent Claude MCP run.\n")])) tr).2 →
      Effect.createJob j ∈ tr :=
    fun tr j hh => gitStep_no_createJob env _ _ _ h4 tr j hh
  have h2 : ∀ (tr : List Effect) (j : K8sJob),
      Effect.createJob j ∈ (gitStep env ["config", "user.email", "agent@claude.local"]
        (run_dir_of gid ++ "/repo")
        (fun tr => gitStep env ["config", "user.name", "Claude Agent"]
          (run_dir_of gid ++ "/repo")
          (fun tr => gitStep env ["add", "."] (run_dir_of gid ++ "/repo")
            (fun tr => gitStep env ["commit", "-m", "Initial commit"]
              (run_dir_of gid ++ "/repo")
              (fun tr => create_worktrees env (run_dir_of gid)
                (run_dir_of gid ++ "/repo") (List.range n) tr) tr)
            (tr ++ [Effect.writeFile (run_dir_of gid ++ "/repo" ++ "/README.md")
              ("# Run " ++ gid ++ "\n\nMulti-agent Claude MCP run.\n")])) tr) tr).2 →
      Effect.createJob j ∈ tr :=
    fun tr j hh => gitStep_no_createJob env _ _ _ h3 tr j hh
  have h1 := gitStep_no_createJob env _ _ _ h2 _ j h
  rcases List.mem_append.mp h1 with h1 | h1
  · exact h1
  · simp at h1

/-- When `setup_run_repo` succeeds, the returned lanes are exactly one
per index in `[0, num_agents)`, with branch `agent-<i>` and worktree
path `<run_dir>/agent-<i>`. -/
theorem setup_run_repo_ok (env : GitEnv) (gid : String) (n : Nat)
    (tr tr' : List Effect) (ws : List Worktree)
    (h : setup_run_repo env gid n tr = (.ok ws, tr')) :
    ws = (List.range n).map (fun i =>
      ⟨i, "agent-" ++ Nat.repr i, run_dir_of gid ++ ("/agent-" ++ Nat.repr i)⟩) := by
  unfold setup_run_repo at h
  obtain ⟨tr1, h⟩ := gitStep_ok _ _ _ _ _ _ _ h
  obtain ⟨tr2, h⟩ := gitStep_ok _ _ _ _ _ _ _ h
  obtain ⟨tr3, h⟩ := gitStep_ok _ _ _ _ _ _ _ h
  obtain ⟨tr4, h⟩ := gitStep_ok _ _ _ _ _ _ _ h
  obtain ⟨tr5, h⟩ := gitStep_ok _ _ _ _ _ _ _ h
  exact create_worktrees_ok env _ _ _ _ _ _ h

-- ---------------------------------------------------------------------------
-- Claim theorems
-- ---------------------------------------------------------------------------

set_option maxRecDepth 40000 in
/-- C1 counterexample: the system prompt built for a COMMITTER-role job
(for the concrete lane branch `agent-0` and the run repository
`/mnt/claude-output/run-abc/repo`) nowhere mentions the review artifact
(no occurrence of the substring `review`, hence none of
`review-details.md`), and does not request a non-fast-forward merge (no
occurrence of `--no-ff`), contradicting the claim that it instructs
verifying the review artifact and merging with a non-fast-forward
merge. -/
theorem C1_counterexample :
    strContains (_committer_system_prompt "agent-0" "/mnt/claude-output/run-abc/repo")
      "review" = false ∧
    strContains (_committer_system_prompt "agent-0" "/mnt/claude-output/run-abc/repo")
      "--no-ff" = false := by decide

set_option maxRecDepth 40000 in
/-- C1 (amended): the COMMITTER system prompt instructs changing into
the repository directory and unconditionally merging the lane's branch
into main with a plain `git merge <branch>` (conflicts are to be
resolved and committed); the fixed prompt text — the template with
empty holes — nowhere mentions a review, an approval check, a
non-fast-forward flag, or skipping the merge. -/
theorem C1_committer_merges_unconditionally (branch repo_dir : String) :
    strContains (_committer_system_prompt branch repo_dir) ("git merge " ++ branch) = true ∧
    strContains (_committer_system_prompt branch repo_dir) ("cd " ++ repo_dir) = true ∧
    strContains (_committer_system_prompt "" "") "review" = false ∧
    strContains (_committer_system_prompt "" "") "--no-ff" = false ∧
    strContains (_committer_system_prompt "" "") "skip" = false ∧
    strContains (_committer_system_prompt "" "") "If there are merge conflicts, resolve them" = true := by
  refine ⟨?_, ?_, by decide, by decide, by decide, by decide⟩
  · have hsplit : _committer_system_prompt branch repo_dir =
        ("You are the COMMITTER agent. Your job is to merge branch '" ++ branch ++ "' " ++
         "into the main branch.\n\n" ++
         "Follow these steps:\n" ++
         "  1. Change directory: `" ++ "cd " ++ repo_dir ++ "`\n" ++
         "  2. Run `") ++
        ("git merge " ++ branch) ++
        ("` to merge the branch into main.\n" ++
         "  3. If there are merge conflicts, resolve them and then run\n" ++
         "     `git add -A` followed by `git commit -m \"Merge: resolved conflicts\"`.\n" ++
         "  4. Verify the merge succeeded: `git log --oneline -5`\n" ++
         "Do NOT push. Do NOT delete the branch.\n") := by
      simp only [_committer_system_prompt, String.append_assoc]
    rw [hsplit]
    exact strContains_append_mid _ _ _
  · have hsplit : _committer_system_prompt branch repo_dir =
        ("You are the COMMITTER agent. Your job is to merge branch '" ++ branch ++ "' " ++
         "into the main branch.\n\n" ++
         "Follow these steps:\n" ++
         "  1. Change directory: `") ++
        ("cd " ++ repo_dir) ++
        ("`\n" ++
         "  2. Run `" ++ "git merge " ++ branch ++ "` to merge the branch into main.\n" ++
         "  3. If there are merge conflicts, resolve them and then run\n" ++
         "     `git add -A` followed by `git commit -m \"Merge: resolved conflicts\"`.\n" ++
         "  4. Verify the merge succeeded: `git log --oneline -5`\n" ++
         "Do NOT push. Do NOT delete the branch.\n") := by
      simp only [_committer_system_prompt, String.append_assoc]
    rw [hsplit]
    exact strContains_append_mid _ _ _

/-- C2: the stage-advancement operation is guarded: a signal for a lane
not currently at `from_stage` fails with `StageConflictError` (and, the
state not being part of the error, leaves the lane table unchanged),
and a second invocation with the same (run_id, agent_id, from_stage)
after a successful first one is rejected by the same guard, so
duplicate, stale or out-of-order triggers never advance a lane. -/
theorem C2_advanceStage_guarded :
    (∀ (st : RunState) (rid : String) (aid : Nat) (fs : Stage),
      st rid aid ≠ fs.toLane →
      advanceStage st rid aid fs = .error ⟨rid, aid, fs⟩) ∧
    (∀ (st st' : RunState) (rid : String) (aid : Nat) (fs : Stage),
      advanceStage st rid aid fs = .ok st' →
      advanceStage st' rid aid fs = .error ⟨rid, aid, fs⟩) := by
  constructor
  · intro st rid aid fs hne
    unfold advanceStage
    rw [if_neg hne]
  · intro st st' rid aid fs hok
    unfold advanceStage at hok ⊢
    split at hok
    · rename_i hguard
      have hst' : st' = fun r a =>
          if r = rid ∧ a = aid then fs.next else st r a := (Except.ok.inj hok).symm
      have hlane : st' rid aid = fs.next := by
        rw [hst']
        simp
      have hne : st' rid aid ≠ fs.toLane := by
        rw [hlane]
        cases fs <;> simp [Stage.next, Stage.toLane]
      rw [if_neg hne]
    · exact absurd hok (by simp)

/-- C2 witness: on the concrete table with every lane at WORKER, a
stale REVIEWER signal is rejected, and a duplicate WORKER signal after
a successful advancement is rejected. -/
theorem C2_witness :
    advanceStage demoState0 "run" 0 .reviewer = .error ⟨"run", 0, .reviewer⟩ ∧
    advanceStage demoState1 "run" 0 .worker = .error ⟨"run", 0, .worker⟩ :=
  ⟨C2_advanceStage_guarded.1 demoState0 "run" 0 .reviewer (by decide),
   C2_advanceStage_guarded.2 demoState0 demoState1 "run" 0 .worker rfl⟩

/-- C3: for every num_agents in [1,10], `setup_run_repo` creates
exactly num_agents agent lanes; lane i carries branch `agent-<i>` and
worktree path `<run_dir>/agent-<i>`, no two lanes of one run share a
branch name or a worktree path, and distinct run ids yield distinct
run directories. -/
theorem C3_setup_creates_unique_lanes (env : GitEnv) (gid gid' : String) (n : Nat)
    (h1 : 1 ≤ n) (h2 : n ≤ 10) (ws : List Worktree)
    (hok : setupWorktrees? env gid n = some ws) :
    ws.length = n ∧
    (∀ k, (hk : k < ws.length) → ws.get ⟨k, hk⟩ =
      ⟨k, "agent-" ++ Nat.repr k, run_dir_of gid ++ ("/agent-" ++ Nat.repr k)⟩) ∧
    (∀ i j, (hi : i < ws.length) → (hj : j < ws.length) → i ≠ j →
      (ws.get ⟨i, hi⟩).branch ≠ (ws.get ⟨j, hj⟩).branch ∧
      (ws.get ⟨i, hi⟩).worktree_path ≠ (ws.get ⟨j, hj⟩).worktree_path) ∧
    (gid ≠ gid' → run_dir_of gid ≠ run_dir_of gid') := by
  have hws : ws = (List.range n).map (fun i =>
      ⟨i, "agent-" ++ Nat.repr i, run_dir_of gid ++ ("/agent-" ++ Nat.repr i)⟩) := by
    unfold setupWorktrees? at hok
    split at hok
    · rename_i ws0 tr0 heq
      have h0 : ws0 = ws := Option.some.inj hok
      rw [← h0]
      exact setup_run_repo_ok env gid n [] tr0 ws0 heq
    · exact absurd hok (by simp)
  subst hws
  have hlen : ((List.range n).map (fun i =>
      (⟨i, "agent-" ++ Nat.repr i, run_dir_of gid ++ ("/agent-" ++ Nat.repr i)⟩ : Worktree))).length
      = n := by simp
  refine ⟨hlen, ?_, ?_, ?_⟩
  · intro k hk
    simp
  · intro i j hi hj hne
    have hi10 : i < 10 := lt_of_lt_of_le (hlen ▸ hi) h2
    have hj10 : j < 10 := lt_of_lt_of_le (hlen ▸ hj) h2
    constructor
    · simp only [List.get_eq_getElem]
      simp only [List.getElem_map]
      simp
      exact agent_branch_names_distinct i hi10 j hj10 hne
    · simp only [List.get_eq_getElem]
      simp only [List.getElem_map]
      simp
      intro contra
      exact agent_dir_suffixes_distinct i hi10 j hj10 hne (string_append_left_cancel contra)
  · intro hne contra
    unfold run_dir_of at contra
    exact hne (string_append_left_cancel contra)

/-- C3 witness: a concrete successful two-agent setup has two lanes,
and two distinct run ids give distinct run directories. -/
theorem C3_witness :
    ([⟨0, "agent-0", run_dir_of "abc" ++ ("/agent-" ++ Nat.repr 0)⟩,
      ⟨1, "agent-1", run_dir_of "abc" ++ ("/agent-" ++ Nat.repr 1)⟩] : List Worktree).length = 2 ∧
    run_dir_of "abc" ≠ run_dir_of "xyz" :=
  ⟨(C3_setup_creates_unique_lanes gitOkEnv "abc" "xyz" 2 (by decide) (by decide) _ rfl).1,
   (C3_setup_creates_unique_lanes gitOkEnv "abc" "xyz" 2 (by decide) (by decide) _ rfl).2.2.2
     (by decide)⟩

/-- C4: a `POST /api/run` request with an empty prompt or num_agents
outside [1,10] is rejected with HTTP 400 and produces no effect at
all: `setup_run_repo` is not invoked (no directory, repository, branch
or worktree is created) and no job is submitted. -/
theorem C4_validation_rejects_before_side_effects
    (env : GitEnv) (req : RunRequest) (gid : String)
    (h : req.prompt = "" ∨ req.num_agents < 1 ∨ req.num_agents > 10) :
    isBadRequest (run_agents env req gid).1 = true ∧ (run_agents env req gid).2 = [] := by
  unfold run_agents
  split_ifs with hp hn
  · exact ⟨rfl, rfl⟩
  · exact ⟨rfl, rfl⟩
  · rcases h with h | h | h
    · exact absurd h hp
    · exact absurd (Or.inl h) hn
    · exact absurd (Or.inr h) hn

/-- C4 witness: the empty-prompt request with three agents is rejected
with a 400 and an empty effect trace. -/
theorem C4_witness :
    isBadRequest (run_agents gitOkEnv ⟨"", 3⟩ "g").1 = true ∧
    (run_agents gitOkEnv ⟨"", 3⟩ "g").2 = [] :=
  C4_validation_rejects_before_side_effects gitOkEnv ⟨"", 3⟩ "g" (Or.inl rfl)

/-- C5: when any git operation of the workspace setup fails, the run is
aborted with HTTP 500 carrying the underlying stderr text, the trace is
exactly the setup trace, and no job was submitted (job submission
happens only after `setup_run_repo` returned successfully). -/
theorem C5_setup_failure_aborts_run
    (env : GitEnv) (req : RunRequest) (gid stderr : String) (tr : List Effect)
    (hp : req.prompt ≠ "") (h1 : 1 ≤ req.num_agents) (h2 : req.num_agents ≤ 10)
    (hfail : setup_run_repo env gid req.num_agents.toNat [] = (.error stderr, tr)) :
    (run_agents env req gid).1 =
      .error ⟨500, "Failed to set up git worktrees: " ++ stderr⟩ ∧
    (run_agents env req gid).2 = tr ∧
    ∀ j : K8sJob, Effect.createJob j ∉ (run_agents env req gid).2 := by
  have hn : ¬(req.num_agents < 1 ∨ req.num_agents > 10) := by omega
  have hrun : run_agents env req gid =
      (.error ⟨500, "Failed to set up git worktrees: " ++ stderr⟩, tr) := by
    unfold run_agents
    rw [if_neg hp, if_neg hn, hfail]
  refine ⟨by rw [hrun], by rw [hrun], ?_⟩
  intro j hj
  rw [hrun] at hj
  have hj2 : Effect.createJob j ∈ (setup_run_repo env gid req.num_agents.toNat []).2 := by
    rw [hfail]
    exact hj
  have := createJob_notin_setup env gid req.num_agents.toNat [] j hj2
  simp at this

/-- C5 witness: on a git substrate whose first command fails with
stderr `boom`, the one-agent run returns HTTP 500 carrying `boom`. -/
theorem C5_witness :
    (run_agents gitFailEnv ⟨"p", 1⟩ "g").1 =
      .error ⟨500, "Failed to set up git worktrees: " ++ "boom"⟩ ∧
    (run_agents gitFailEnv ⟨"p", 1⟩ "g").2 =
      [Effect.makedirs "/mnt/claude-output/run-g/repo",
       Effect.gitCall ["init"] "/mnt/claude-output/run-g/repo"] :=
  ⟨(C5_setup_failure_aborts_run gitFailEnv ⟨"p", 1⟩ "g" "boom"
      [Effect.makedirs "/mnt/claude-output/run-g/repo",
       Effect.gitCall ["init"] "/mnt/claude-output/run-g/repo"]
      (by decide) (by decide) (by decide) rfl).1,
   (C5_setup_failure_aborts_run gitFailEnv ⟨"p", 1⟩ "g" "boom"
      [Effect.makedirs "/mnt/claude-output/run-g/repo",
       Effect.gitCall ["init"] "/mnt/claude-output/run-g/repo"]
      (by decide) (by decide) (by decide) rfl).2.1⟩

/-- C6 counterexample: for a REVIEWER-role pod whose caller supplied no
prompt, the effective prompt is the fixed reviewer prompt `Review all
changes on branch 'agent-0'. Create review-details.md and commit your
review.`, not the claimed default `review the latest commit on this
branch`. -/
theorem C6_counterexample :
    effectivePromptOf (worker_main_config reviewerEnv0) =
      some ("Review all changes on branch '" ++ "agent-0" ++ "'. " ++
        "Create review-details.md and commit your review.") ∧
    effectivePromptOf (worker_main_config reviewerEnv0) ≠
      some "review the latest commit on this branch" := by decide

/-- C6 (amended): for a REVIEWER-role job the working directory is the
lane's worktree (whenever AGENT_WORKTREE_PATH is nonempty), and the
effective prompt is always the fixed string `Review all changes on
branch '<branch>'. Create review-details.md and commit your review.`,
whether or not the caller supplied a prompt. -/
theorem C6_reviewer_cwd_and_prompt (e : WorkerEnv)
    (hrole : os_environ_get e "AGENT_ROLE" "worker" = "reviewer")
    (hwt : os_environ_get e "AGENT_WORKTREE_PATH" "" ≠ "") :
    worker_main_config e = .setup
      ⟨os_environ_get e "AGENT_WORKTREE_PATH" "",
       _reviewer_system_prompt (os_environ_get e "AGENT_ID" "0")
         (os_environ_get e "AGENT_BRANCH" ""),
       "Review all changes on branch '" ++ os_environ_get e "AGENT_BRANCH" "" ++ "'. " ++
       "Create review-details.md and commit your review."⟩ := by
  simp only [worker_main_config, hrole]
  simp [hwt]

/-- C6 witness: the concrete reviewer environment (no caller prompt,
worktree `/mnt/claude-output/run-abc/agent-0`) runs in the worktree
with the fixed reviewer prompt. -/
theorem C6_witness :
    worker_main_config reviewerEnv0 = .setup
      ⟨"/mnt/claude-output/run-abc/agent-0",
       _reviewer_system_prompt "0" "agent-0",
       "Review all changes on branch '" ++ "agent-0" ++ "'. " ++
       "Create review-details.md and commit your review."⟩ :=
  C6_reviewer_cwd_and_prompt reviewerEnv0 rfl (by decide)

/-- C7 counterexample: the job-naming rule of the orchestrator takes no
stage input, so the names assigned to the WORKER-stage and the
REVIEWER-stage job of the same lane coincide, contradicting uniqueness
of job names across the three stages of a lane. -/
theorem C7_counterexample :
    job_name_for_stage "abc" 0 Stage.worker = job_name_for_stage "abc" 0 Stage.reviewer ∧
    Stage.worker ≠ Stage.reviewer := by decide

/-- C7 (amended): the job name is derived from the run id and the agent
id only (`mcp-worker-<run>-<agent>`); it is injective in the (run id,
agent id) pair for agent ids below ten, hence unique across lanes of a
run and across runs, but it carries no stage component. -/
theorem C7_job_name_unique_per_lane (g1 g2 : String) (a1 a2 : Nat)
    (h1 : a1 < 10) (h2 : a2 < 10)
    (heq : job_name g1 a1 = job_name g2 a2) : g1 = g2 ∧ a1 = a2 := by
  unfold job_name at heq
  have hd := congrArg String.data heq
  simp only [String.data_append, List.append_assoc] at hd
  have hd2 := List.append_cancel_left hd
  have hlen2 : g1.data.length = g2.data.length := by
    have htot := congrArg List.length hd2
    simp only [List.length_append] at htot
    rw [nat_repr_len_one a1 h1, nat_repr_len_one a2 h2] at htot
    omega
  obtain ⟨hg, hr⟩ := List.append_inj hd2 hlen2
  refine ⟨String.ext hg, ?_⟩
  have hr2 := List.append_cancel_left hr
  exact nat_repr_inj_lt10 a1 h1 a2 h2 (String.ext hr2)

/-- C7 witness: the uniqueness theorem applied at a concrete run id and
agent id. -/
theorem C7_witness : ("abc" : String) = "abc" ∧ 3 = 3 :=
  C7_job_name_unique_per_lane "abc" "abc" 3 3 (by decide) (by decide) rfl

/-- C8: log retrieval produces one entry per pod backing the job; a
pod whose log fetch fails contributes an error entry instead of
raising, and every other pod's entry still appears. -/
theorem C8_results_tolerate_pod_failures
    (pods : List String) (readLog : LogOracle) (jn p : String) (hp : p ∈ pods) :
    (get_results pods readLog jn).2.length = pods.length ∧
    (∀ l, readLog p = .ok l → PodLogEntry.log p l ∈ (get_results pods readLog jn).2) ∧
    (∀ e, readLog p = .error e → PodLogEntry.err p e ∈ (get_results pods readLog jn).2) := by
  refine ⟨by simp [get_results], ?_, ?_⟩
  · intro l hl
    exact List.mem_map.mpr ⟨p, hp, by rw [hl]⟩
  · intro e he
    exact List.mem_map.mpr ⟨p, hp, by rw [he]⟩

/-- C8 witness: with pod `pod-1`'s log fetch failing, the response
still has one entry per pod and reports the failure as an error
entry. -/
theorem C8_witness :
    (get_results ["pod-0", "pod-1"] demoLog "job-x").2.length = 2 ∧
    PodLogEntry.err "pod-1" "boom" ∈ (get_results ["pod-0", "pod-1"] demoLog "job-x").2 :=
  ⟨(C8_results_tolerate_pod_failures ["pod-0", "pod-1"] demoLog "job-x" "pod-1"
      (by decide)).1,
   (C8_results_tolerate_pod_failures ["pod-0", "pod-1"] demoLog "job-x" "pod-1"
      (by decide)).2.2 "boom" rfl⟩

/-- C9: the status endpoint classifies each job by the fixed precedence
completed > failed > running > pending on the substrate's counters; in
particular both counters positive yields `completed`, and a run group
matching no job yields an empty job list rather than an error. -/
theorem C9_status_precedence :
    (∀ s f a : Nat, 0 < s → classify_job s f a = "completed") ∧
    (∀ s f a : Nat, s = 0 → 0 < f → classify_job s f a = "failed") ∧
    (∀ s f a : Nat, s = 0 → f = 0 → 0 < a → classify_job s f a = "running") ∧
    (∀ s f a : Nat, s = 0 → f = 0 → a = 0 → classify_job s f a = "pending") ∧
    (∀ s f a : Nat, 0 < s → 0 < f → classify_job s f a = "completed") ∧
    (∀ (cluster : List ClusterJob) (gid : String),
      (∀ j ∈ cluster, j.labels.lookup "job-group" ≠ some gid) →
      get_status cluster gid = (gid, [])) := by
  refine ⟨?_, ?_, ?_, ?_, ?_, ?_⟩
  · intro s f a hs
    unfold classify_job
    rw [if_pos hs]
  · intro s f a hs hf
    unfold classify_job
    rw [if_neg (by omega), if_pos hf]
  · intro s f a hs hf ha
    unfold classify_job
    rw [if_neg (by omega), if_neg (by omega), if_pos ha]
  · intro s f a hs hf ha
    unfold classify_job
    rw [if_neg (by omega), if_neg (by omega), if_neg (by omega)]
  · intro s f a hs hf
    unfold classify_job
    rw [if_pos hs]
  · intro cluster gid hnone
    unfold get_status list_jobs_matching
    have hfil : cluster.filter (fun j => j.labels.lookup "job-group" == some gid) = [] := by
      rw [List.filter_eq_nil]
      intro j hj
      simpa using hnone j hj
    rw [hfil]
    rfl

/-- C9 witness: a job reporting both successes and failures is
classified `completed`, and an unknown run group yields an empty job
list. -/
theorem C9_witness :
    classify_job 2 3 0 = "completed" ∧
    get_status demoCluster "nope" = ("nope", []) :=
  ⟨C9_status_precedence.2.2.2.2.1 2 3 0 (by decide) (by decide),
   C9_status_precedence.2.2.2.2.2 demoCluster "nope" (by decide)⟩

/-- The environment-variable names of every job spec built by
`_build_job`, in order. -/
theorem build_job_env_names (name prompt : String) (aid : Nat) (gid branch wt : String) :
    (_build_job name prompt aid gid branch wt).env.map EnvVar.name =
      ["AGENT_PROMPT", "AGENT_ID", "JOB_GROUP_ID", "AGENT_BRANCH",
       "AGENT_WORKTREE_PATH", "ANTHROPIC_API_KEY"] := rfl

/-- A pod of a job built by `_build_job` sees no AGENT_ROLE variable,
so the worker entrypoint resolves its role to the default `worker`. -/
theorem build_job_role_default (name prompt : String) (aid : Nat) (gid branch wt secret : String) :
    os_environ_get (workerEnvOfJob (_build_job name prompt aid gid branch wt) secret)
      "AGENT_ROLE" "worker" = "worker" := rfl

/-- C10: every job submitted by a successful `POST /api/run` sets
exactly the environment variables AGENT_PROMPT, AGENT_ID, JOB_GROUP_ID,
AGENT_BRANCH, AGENT_WORKTREE_PATH and ANTHROPIC_API_KEY — never
AGENT_ROLE or REPO_DIR — so the worker entrypoint defaults the job's
role to `worker`: the orchestrator never submits a REVIEWER or
COMMITTER job. -/
theorem C10_submitted_jobs_run_as_worker
    (env : GitEnv) (req : RunRequest) (gid : String)
    (res : RunResponse) (tr : List Effect)
    (hok : run_agents env req gid = (.ok res, tr)) (j : K8sJob)
    (hj : Effect.createJob j ∈ tr) :
    j.env.map EnvVar.name = ["AGENT_PROMPT", "AGENT_ID", "JOB_GROUP_ID",
      "AGENT_BRANCH", "AGENT_WORKTREE_PATH", "ANTHROPIC_API_KEY"] ∧
    "AGENT_ROLE" ∉ j.env.map EnvVar.name ∧
    "REPO_DIR" ∉ j.env.map EnvVar.name ∧
    ∀ secret, os_environ_get (workerEnvOfJob j secret) "AGENT_ROLE" "worker" = "worker" := by
  have hbuilt : ∃ name prompt aid branch wt, j = _build_job name prompt aid gid branch wt := by
    unfold run_agents at hok
    split_ifs at hok with hp hn
    · simp at hok
    · simp at hok
    · split at hok
      · simp at hok
      · rename_i ws tr0 heq
        simp only [Prod.mk.injEq] at hok
        rw [← hok.2] at hj
        rcases List.mem_append.mp hj with hj | hj
        · exfalso
          have hj2 : Effect.createJob j ∈ (setup_run_repo env gid req.num_agents.toNat []).2 := by
            rw [heq]
            exact hj
          have := createJob_notin_setup env gid req.num_agents.toNat [] j hj2
          simp at this
        · simp only [List.map_map] at hj
          obtain ⟨wt, hwt, hfe⟩ := List.mem_map.mp hj
          simp only [Function.comp] at hfe
          simp only [Effect.createJob.injEq] at hfe
          exact ⟨_, _, _, _, _, hfe.symm⟩
  obtain ⟨name, prompt, aid, branch, wt, rfl⟩ := hbuilt
  refine ⟨build_job_env_names name prompt aid gid branch wt, ?_, ?_,
    fun secret => build_job_role_default name prompt aid gid branch wt secret⟩
  · rw [build_job_env_names]
    decide
  · rw [build_job_env_names]
    decide

/-- C10 witness: the single job submitted by a concrete successful
one-agent run carries exactly the six expected environment variables
and resolves to the worker role. -/
theorem C10_witness :
    (_build_job "mcp-worker-g-0" "p" 0 "g" "agent-0"
        "/mnt/claude-output/run-g/agent-0").env.map EnvVar.name =
      ["AGENT_PROMPT", "AGENT_ID", "JOB_GROUP_ID", "AGENT_BRANCH",
       "AGENT_WORKTREE_PATH", "ANTHROPIC_API_KEY"] ∧
    os_environ_get (workerEnvOfJob (_build_job "mcp-worker-g-0" "p" 0 "g" "agent-0"
        "/mnt/claude-output/run-g/agent-0") "sk") "AGENT_ROLE" "worker" = "worker" :=
  ⟨(C10_submitted_jobs_run_as_worker gitOkEnv ⟨"p", 1⟩ "g"
      ⟨"g", ["mcp-worker-g-0"]⟩
      [Effect.makedirs "/mnt/claude-output/run-g/repo",
       Effect.gitCall ["init"] "/mnt/claude-output/run-g/repo",
       Effect.gitCall ["config", "user.email", "agent@claude.local"]
         "/mnt/claude-output/run-g/repo",
       Effect.gitCall ["config", "user.name", "Claude Agent"]
         "/mnt/claude-output/run-g/repo",
       Effect.writeFile "/mnt/claude-output/run-g/repo/README.md"
         "# Run g\n\nMulti-agent Claude MCP run.\n",
       Effect.gitCall ["add", "."] "/mnt/claude-output/run-g/repo",
       Effect.gitCall ["commit", "-m", "Initial commit"] "/mnt/claude-output/run-g/repo",
       Effect.gitCall ["worktree", "add", "-b", "agent-0", "/mnt/claude-output/run-g/agent-0"]
         "/mnt/claude-output/run-g/repo",
       Effect.createJob (_build_job "mcp-worker-g-0" "p" 0 "g" "agent-0"
         "/mnt/claude-output/run-g/agent-0")]
      rfl
      (_build_job "mcp-worker-g-0" "p" 0 "g" "agent-0" "/mnt/claude-output/run-g/agent-0")
      (by simp)).1,
   (C10_submitted_jobs_run_as_worker gitOkEnv ⟨"p", 1⟩ "g"
      ⟨"g", ["mcp-worker-g-0"]⟩
      [Effect.makedirs "/mnt/claude-output/run-g/repo",
       Effect.gitCall ["init"] "/mnt/claude-output/run-g/repo",
       Effect.gitCall ["config", "user.email", "agent@claude.local"]
         "/mnt/claude-output/run-g/repo",
       Effect.gitCall ["config", "user.name", "Claude Agent"]
         "/mnt/claude-output/run-g/repo",
       Effect.writeFile "/mnt/claude-output/run-g/repo/README.md"
         "# Run g\n\nMulti-agent Claude MCP run.\n",
       Effect.gitCall ["add", "."] "/mnt/claude-output/run-g/repo",
       Effect.gitCall ["commit", "-m", "Initial commit"] "/mnt/claude-output/run-g/repo",
       Effect.gitCall ["worktree", "add", "-b", "agent-0", "/mnt/claude-output/run-g/agent-0"]
         "/mnt/claude-output/run-g/repo",
       Effect.createJob (_build_job "mcp-worker-g-0" "p" 0 "g" "agent-0"
         "/mnt/claude-output/run-g/agent-0")]
      rfl
      (_build_job "mcp-worker-g-0" "p" 0 "g" "agent-0" "/mnt/claude-output/run-g/agent-0")
      (by simp)).2.2.2 "sk"⟩
